import Mathlib

/-!
Shallow embedding of the GitHubMetrics repository-ingestion pipeline
(src/src/App.js): URL parsing (extractRepoInfo), metric fetching and
derivation (fetchGitHubRepoData), the submit pipeline (handleSubmit) and
listing (fetchRepos).  Platform collaborators (the WHATWG URL constructor,
the HTTP fetch transport, the persistence store) are modelled explicitly;
everything else follows the source line by line.
-/

namespace GitHubMetrics

/-- Result of the platform URL constructor, restricted to the fields the
source reads: hostname and pathname (protocol kept for completeness). -/
structure UrlObj where
  protocol : String
  hostname : String
  pathname : String
deriving DecidableEq, Repr

/-- Splits a character list at the first occurrence of the literal
scheme separator "://", returning the parts before and after it. -/
def splitScheme : List Char → Option (List Char × List Char)
  | ':' :: '/' :: '/' :: rest => some ([], rest)
  | c :: rest =>
    match splitScheme rest with
    | some (a, b) => some (c :: a, b)
    | none => none
  | [] => none

/-- Model of the platform URL constructor (the WHATWG URL parser invoked by
the source as new URL(url)), restricted to absolute scheme://host/path URLs
with optional query and fragment, which is the shape of every repository URL
the application handles.  Returns none when the constructor would throw. -/
def urlParse (s : String) : Option UrlObj :=
  match splitScheme s.data with
  | none => none
  | some (scheme, rest) =>
    if scheme = [] then none
    else
      let hostname := rest.takeWhile (fun c => !(c == '/' || c == '?' || c == '#'))
      let tail := rest.dropWhile (fun c => !(c == '/' || c == '?' || c == '#'))
      if hostname = [] then none
      else
        let pathname :=
          match tail with
          | '/' :: _ => tail.takeWhile (fun c => !(c == '?' || c == '#'))
          | _ => ['/']
        some ⟨String.mk scheme, String.mk hostname, String.mk pathname⟩

/-- Splits a character list on a separator character, JavaScript
String.prototype.split style: keeps empty pieces between separators. -/
def splitOnChar (sep : Char) : List Char → List (List Char)
  | [] => [[]]
  | x :: xs =>
    let r := splitOnChar sep xs
    if x = sep then [] :: r
    else
      match r with
      | [] => [[x]]
      | y :: ys => (x :: y) :: ys

/-- JavaScript s.split(sep) for a single-character separator. -/
def jsSplit (s : String) (sep : Char) : List String :=
  (splitOnChar sep s.data).map String.mk

/-- Repository identity extracted from a URL (owner, name, fullName). -/
structure RepoInfo where
  owner : String
  name : String
  fullName : String
deriving DecidableEq, Repr

/-- Body of the try block of extractRepoInfo in the source: URL
construction, hostname check, path split + filter(Boolean), arity check. -/
def extractRepoInfoInner (url : String) : Except String RepoInfo :=
  match urlParse url with
  | none => .error "Invalid URL"
  | some urlObj =>
    if urlObj.hostname ≠ "github.com" then
      .error "Not a valid GitHub URL"
    else
      let pathParts := (jsSplit urlObj.pathname '/').filter (fun t => t != "")
      match pathParts with
      | p0 :: p1 :: _ => .ok ⟨p0, p1, p0 ++ "/" ++ p1⟩
      | _ => .error "Not a valid repository URL"

/-- extractRepoInfo from the source: the whole try block is wrapped in a
catch that rethrows every failure as the single generic error message
"Invalid GitHub URL format". -/
def extractRepoInfo (url : String) : Except String RepoInfo :=
  match extractRepoInfoInner url with
  | .ok r => .ok r
  | .error _ => .error "Invalid GitHub URL format"

/-- Fields of the provider's JSON repository object that the source reads.
language and pushed_at are optional in the provider schema; a JavaScript
falsy value (null, undefined) is modelled as none, and the empty string,
also falsy, as some "". -/
structure GitHubRepoJson where
  name : String
  owner_login : String
  full_name : String
  stargazers_count : Nat
  forks_count : Nat
  open_issues_count : Nat
  language : Option String
  pushed_at : Option Int
deriving DecidableEq, Repr

/-- Outcome of one platform fetch call: either the transport fails (the
promise rejects with an error carrying a message) or a response arrives
with a status code and a parsed JSON body. -/
inductive FetchOutcome where
  | transportError (message : String)
  | response (status : Nat) (data : GitHubRepoJson)
deriving DecidableEq, Repr

/-- Platform Response.ok: status in the inclusive range 200..299. -/
def responseOk (status : Nat) : Bool :=
  200 ≤ status && status < 300

/-- JavaScript value || dflt on an optional string: falsy values (absent
field, empty string) fall through to the default. -/
def jsStringOr (s : Option String) (dflt : String) : String :=
  match s with
  | none => dflt
  | some v => if v = "" then dflt else v

/-- healthscore from the source: Math.round((1 - issues/(stars+1)) * 100),
with JavaScript Math.round(x) = ⌊x + 1/2⌋ and exact arithmetic on the
integer inputs. -/
def healthscore (stars issues : Nat) : Int :=
  round ((1 - (issues : ℚ) / ((stars : ℚ) + 1)) * 100)

/-- trendingfactor from the source: Math.round((stars/(forks+1)) * 10). -/
def trendingfactor (stars forks : Nat) : Int :=
  round (((stars : ℚ) / ((forks : ℚ) + 1)) * 10)

/-- Milliseconds per day, the source's 1000 * 60 * 60 * 24. -/
def msPerDay : Int := 1000 * 60 * 60 * 24

/-- activitylevel from the source: when pushed_at is present (truthy),
the string interpolation of Math.round((now - pushedAt) / msPerDay)
followed by " days"; otherwise the literal "Unknown".  Timestamps are in
milliseconds since the epoch. -/
def activitylevel (pushed_at : Option Int) (now : Int) : String :=
  match pushed_at with
  | some p => toString (round (((now - p : Int) : ℚ) / (msPerDay : ℚ))) ++ " days"
  | none => "Unknown"

/-- Persisted record shape, the object literal built at lines 80-92 of the
source.  createdat is kept as the instant (epoch milliseconds) that the
source serialises with toISOString. -/
structure RepoRecord where
  name : String
  owner : String
  fullname : String
  stars : Nat
  forks : Nat
  issues : Nat
  mainlanguage : String
  healthscore : Int
  activitylevel : String
  trendingfactor : Int
  createdat : Int
deriving DecidableEq, Repr

/-- Mapping of a successful provider response body into the record the
source returns from fetchGitHubRepoData, field by field. -/
def deriveRecord (data : GitHubRepoJson) (now : Int) : RepoRecord :=
  { name := data.name
    owner := data.owner_login
    fullname := data.full_name
    stars := data.stargazers_count
    forks := data.forks_count
    issues := data.open_issues_count
    mainlanguage := jsStringOr data.language "Unknown"
    healthscore := healthscore data.stargazers_count data.open_issues_count
    activitylevel := activitylevel data.pushed_at now
    trendingfactor := trendingfactor data.stargazers_count data.forks_count
    createdat := now }

/-- fetchGitHubRepoData from the source, with the platform fetch call
abstracted as a fetchOracle from the repository identity to an outcome.
A rejected fetch is caught and rethrown as "Failed to fetch repository
data: " ++ cause message; a response with ok false throws "GitHub API
error: " ++ status, which the same catch rewraps with the same prefix. -/
def fetchGitHubRepoData (repoInfo : RepoInfo) (fetchOracle : RepoInfo → FetchOutcome)
    (now : Int) : Except String RepoRecord :=
  match fetchOracle repoInfo with
  | .transportError msg => .error ("Failed to fetch repository data: " ++ msg)
  | .response status data =>
    if responseOk status then
      .ok (deriveRecord data now)
    else
      .error ("Failed to fetch repository data: GitHub API error: " ++ toString status)

/-- Observable result of one handleSubmit call: the store contents after
the call, how many times the store insert operation was invoked, and the
error state set on failure (the detailed error message). -/
structure SubmitResult where
  store : List RepoRecord
  insertCalls : Nat
  error : Option String
deriving DecidableEq, Repr

/-- handleSubmit from the source: extractRepoInfo, then
fetchGitHubRepoData, then the store insert; the first failure jumps to
the catch block, which only sets error state.  The store (the external
repos table) is modelled as a list of records; a successful insert
appends the record. -/
def handleSubmit (url : String) (fetchOracle : RepoInfo → FetchOutcome)
    (now : Int) (store : List RepoRecord) : SubmitResult :=
  match extractRepoInfo url with
  | .error e => { store := store, insertCalls := 0, error := some e }
  | .ok repoInfo =>
    match fetchGitHubRepoData repoInfo fetchOracle now with
    | .error e => { store := store, insertCalls := 0, error := some e }
    | .ok repoData => { store := store ++ [repoData], insertCalls := 1, error := none }

/-- Descending createdat order on records: a comes before b when b's
createdat is at most a's. -/
def createdDesc (a b : RepoRecord) : Prop :=
  b.createdat ≤ a.createdat

instance : DecidableRel createdDesc :=
  fun a b => inferInstanceAs (Decidable (b.createdat ≤ a.createdat))

instance : IsTotal RepoRecord createdDesc :=
  ⟨fun a b => le_total b.createdat a.createdat⟩

instance : IsTrans RepoRecord createdDesc :=
  ⟨fun _ _ _ hab hbc => le_trans hbc hab⟩

/-- Modelled from the spec: the persistence store's select-all ordered by
createdat descending (the store itself is the external Supabase
collaborator; the source only issues the query with ascending false). -/
def selectAllCreatedAtDesc (store : List RepoRecord) : List RepoRecord :=
  List.insertionSort createdDesc store

/-- fetchRepos from the source: delegates to the store's ordered
select-all and returns its data; an empty result is ordinary data, not an
error. -/
def fetchRepos (store : List RepoRecord) : Except String (List RepoRecord) :=
  .ok (selectAllCreatedAtDesc store)

/-- Identity of the spec's running example repository. -/
def reactInfo : RepoInfo :=
  ⟨"facebook", "react", "facebook/react"⟩

/-- Snapshot of the spec's running example: stars 100, forks 9, issues 10,
last push absent. -/
def reactSnapshot : GitHubRepoJson :=
  ⟨"react", "facebook", "facebook/react", 100, 9, 10, some "JavaScript", none⟩

/-- Same example snapshot with the last push at the epoch. -/
def pushedSnapshot : GitHubRepoJson :=
  ⟨"react", "facebook", "facebook/react", 100, 9, 10, some "JavaScript", some 0⟩

/-- Snapshot whose issues greatly exceed its stars. -/
def troubledSnapshot : GitHubRepoJson :=
  ⟨"x", "y", "y/x", 0, 0, 1000, none, none⟩

/-- Example snapshot with the primary language absent. -/
def noLangSnapshot : GitHubRepoJson :=
  { reactSnapshot with language := none }

/-- Example snapshot with the primary language present but empty. -/
def emptyLangSnapshot : GitHubRepoJson :=
  { reactSnapshot with language := some "" }

end GitHubMetrics

namespace GitHubMetrics

/-- Claim C1: if the parsing stage or the fetching stage of the submit
pipeline fails, the store insert operation is never invoked and the store
is left exactly as it was before the call. -/
theorem handleSubmit_failure_no_insert (url : String)
    (fetchOracle : RepoInfo → FetchOutcome) (now : Int) (store : List RepoRecord)
    (h : (∃ e, extractRepoInfo url = .error e)
      ∨ (∃ repoInfo e, extractRepoInfo url = .ok repoInfo
          ∧ fetchGitHubRepoData repoInfo fetchOracle now = .error e)) :
    (handleSubmit url fetchOracle now store).store = store
    ∧ (handleSubmit url fetchOracle now store).insertCalls = 0 := by
  rcases h with ⟨e, he⟩ | ⟨repoInfo, e, hok, he⟩
  · simp [handleSubmit, he]
  · simp [handleSubmit, hok, he]

/-- Witness for C1: a parse failure and a fetch failure, each on an empty
store, leave the store empty with zero insert calls. -/
theorem handleSubmit_failure_no_insert_witness :
    ((handleSubmit "https://example.com/a/b" (fun _ => .transportError "x") 0 []).store = []
      ∧ (handleSubmit "https://example.com/a/b" (fun _ => .transportError "x") 0 []).insertCalls = 0)
    ∧ ((handleSubmit "https://github.com/facebook/react" (fun _ => .transportError "boom") 0 []).store = []
      ∧ (handleSubmit "https://github.com/facebook/react" (fun _ => .transportError "boom") 0 []).insertCalls = 0) :=
  ⟨handleSubmit_failure_no_insert _ _ _ _ (Or.inl ⟨_, rfl⟩),
   handleSubmit_failure_no_insert _ _ _ _
     (Or.inr ⟨⟨"facebook", "react", "facebook/react"⟩, _, rfl, rfl⟩)⟩

/-- Claim C2: the persisted healthscore is round((1 - issues/(stars+1)) * 100),
unclamped (negative for the troubled snapshot), and 90 for the example
snapshot with stars 100 and issues 10. -/
theorem healthscore_formula_unclamped :
    (∀ (d : GitHubRepoJson) (now : Int),
        (deriveRecord d now).healthscore
          = round ((1 - (d.open_issues_count : ℚ) / ((d.stargazers_count : ℚ) + 1)) * 100))
    ∧ (deriveRecord troubledSnapshot 0).healthscore < 0
    ∧ (deriveRecord reactSnapshot 0).healthscore = 90 := by
  refine ⟨fun d now => rfl, ?_, ?_⟩
  · show healthscore 0 1000 < 0
    have h : healthscore 0 1000 = -99900 := by
      unfold healthscore
      rw [round_eq, Int.floor_eq_iff]
      norm_num
    rw [h]
    norm_num
  · show healthscore 100 10 = 90
    unfold healthscore
    rw [round_eq, Int.floor_eq_iff]
    norm_num

/-- Claim C4: the persisted trendingfactor is round((stars/(forks+1)) * 10),
and 100 for the example snapshot with stars 100 and forks 9. -/
theorem trendingfactor_formula :
    (∀ (d : GitHubRepoJson) (now : Int),
        (deriveRecord d now).trendingfactor
          = round (((d.stargazers_count : ℚ) / ((d.forks_count : ℚ) + 1)) * 10))
    ∧ (deriveRecord reactSnapshot 0).trendingfactor = 100 := by
  refine ⟨fun d now => rfl, ?_⟩
  show trendingfactor 100 9 = 100
  unfold trendingfactor
  rw [round_eq, Int.floor_eq_iff]
  norm_num

/-- Claim C3: the persisted activitylevel is the two-token string
"<N> days" with N = round((now - lastPush) in days) when the last-push
timestamp is present, the single token "Unknown" when it is absent, and no
other shape ever; for the example snapshot pushed at the epoch and viewed
three days later it is literally "3 days". -/
theorem activitylevel_two_token_shape :
    (∀ (d : GitHubRepoJson) (now p : Int), d.pushed_at = some p →
        (deriveRecord d now).activitylevel
          = toString (round (((now - p : Int) : ℚ) / (msPerDay : ℚ))) ++ " days")
    ∧ (∀ (d : GitHubRepoJson) (now : Int), d.pushed_at = none →
        (deriveRecord d now).activitylevel = "Unknown")
    ∧ (∀ (d : GitHubRepoJson) (now : Int),
        (deriveRecord d now).activitylevel = "Unknown"
        ∨ ∃ N : Int, (deriveRecord d now).activitylevel = toString N ++ " days")
    ∧ (deriveRecord pushedSnapshot 259200000).activitylevel = "3 days" := by
  refine ⟨?_, ?_, ?_, ?_⟩
  · intro d now p hp
    show activitylevel d.pushed_at now = _
    rw [hp]
    rfl
  · intro d now hp
    show activitylevel d.pushed_at now = _
    rw [hp]
    rfl
  · intro d now
    rcases hp : d.pushed_at with _ | p
    · exact Or.inl (by show activitylevel d.pushed_at now = _; rw [hp]; rfl)
    · exact Or.inr ⟨_, by show activitylevel d.pushed_at now = _; rw [hp]; rfl⟩
  · have h : round (((259200000 - 0 : Int) : ℚ) / (msPerDay : ℚ)) = 3 := by
      rw [round_eq, Int.floor_eq_iff]
      norm_num [msPerDay]
    show toString (round (((259200000 - 0 : Int) : ℚ) / (msPerDay : ℚ))) ++ " days" = "3 days"
    rw [h]
    rfl

/-- Witness for C3: the present-timestamp and absent-timestamp conclusions
at the concrete example snapshots. -/
theorem activitylevel_two_token_shape_witness :
    (deriveRecord pushedSnapshot 259200000).activitylevel
      = toString (round (((259200000 - 0 : Int) : ℚ) / (msPerDay : ℚ))) ++ " days"
    ∧ (deriveRecord reactSnapshot 0).activitylevel = "Unknown" :=
  ⟨activitylevel_two_token_shape.1 pushedSnapshot 259200000 0 rfl,
   activitylevel_two_token_shape.2.1 reactSnapshot 0 rfl⟩

/-- Claim C5: on a URL the platform URL constructor accepts, whose hostname
is github.com and whose pathname splits (dropping empty pieces) into at
least two segments, extractRepoInfo succeeds with owner the first segment,
name the second, fullName their slash join, ignoring any further
segments. -/
theorem extractRepoInfo_success (url : String) (u : UrlObj)
    (h1 : urlParse url = some u) (h2 : u.hostname = "github.com")
    (p0 p1 : String) (rest : List String)
    (h3 : (jsSplit u.pathname '/').filter (fun t => t != "") = p0 :: p1 :: rest) :
    extractRepoInfo url = .ok ⟨p0, p1, p0 ++ "/" ++ p1⟩ := by
  unfold extractRepoInfo extractRepoInfoInner
  rw [h1]
  simp [h2, h3]

/-- Witness for C5: the spec's example URL, and the same repository URL
with extra path segments and a query string. -/
theorem extractRepoInfo_success_witness :
    extractRepoInfo "https://github.com/facebook/react"
      = .ok ⟨"facebook", "react", "facebook/react"⟩
    ∧ extractRepoInfo "https://github.com/facebook/react/tree/main?tab=readme"
      = .ok ⟨"facebook", "react", "facebook/react"⟩ :=
  ⟨extractRepoInfo_success "https://github.com/facebook/react"
      ⟨"https", "github.com", "/facebook/react"⟩ rfl rfl
      "facebook" "react" [] rfl,
   extractRepoInfo_success "https://github.com/facebook/react/tree/main?tab=readme"
      ⟨"https", "github.com", "/facebook/react/tree/main"⟩ rfl rfl
      "facebook" "react" ["tree", "main"] rfl⟩

/-- Claim C6 counterexample: the wrong-host failure is not a distinct error
class; parsing a non-github URL produces exactly the same error value as
parsing an incomplete github path, namely the single generic message
"Invalid GitHub URL format". -/
theorem unsupported_host_error_not_distinct :
    extractRepoInfo "https://example.com/a/b" = .error "Invalid GitHub URL format"
    ∧ extractRepoInfo "https://example.com/a/b"
        = extractRepoInfo "https://github.com/onlyowner" :=
  ⟨rfl, rfl⟩

/-- Claim C6 amended: on a URL the platform URL constructor accepts whose
hostname is not github.com, extractRepoInfo fails, but with the same
generic "Invalid GitHub URL format" error that every parser failure
carries. -/
theorem extractRepoInfo_wrong_host (url : String) (u : UrlObj)
    (h1 : urlParse url = some u) (h2 : u.hostname ≠ "github.com") :
    extractRepoInfo url = .error "Invalid GitHub URL format" := by
  unfold extractRepoInfo extractRepoInfoInner
  rw [h1]
  simp [h2]

/-- Witness for the amended C6: the spec's wrong-host example URL. -/
theorem extractRepoInfo_wrong_host_witness :
    extractRepoInfo "https://example.com/a/b" = .error "Invalid GitHub URL format" :=
  extractRepoInfo_wrong_host "https://example.com/a/b"
    ⟨"https", "example.com", "/a/b"⟩ rfl (by decide)

/-- Claim C7 counterexample: the incomplete-path failure is not a distinct
error class; parsing a one-segment github URL produces exactly the same
error value as parsing a string that is not a URL at all. -/
theorem incomplete_path_error_not_distinct :
    extractRepoInfo "https://github.com/onlyowner" = .error "Invalid GitHub URL format"
    ∧ extractRepoInfo "https://github.com/onlyowner" = extractRepoInfo "notaurl" :=
  ⟨rfl, rfl⟩

/-- Claim C7 amended: on a URL the platform URL constructor accepts whose
hostname is github.com but whose pathname yields fewer than two non-empty
segments, extractRepoInfo fails, but with the same generic
"Invalid GitHub URL format" error that every parser failure carries. -/
theorem extractRepoInfo_short_path (url : String) (u : UrlObj)
    (h1 : urlParse url = some u) (h2 : u.hostname = "github.com")
    (h3 : ((jsSplit u.pathname '/').filter (fun t => t != "")).length < 2) :
    extractRepoInfo url = .error "Invalid GitHub URL format" := by
  unfold extractRepoInfo extractRepoInfoInner
  rw [h1]
  rcases hl : (jsSplit u.pathname '/').filter (fun t => t != "") with _ | ⟨a, _ | ⟨b, l⟩⟩
  · simp [h2, hl]
  · simp [h2, hl]
  · rw [hl] at h3
    simp at h3
    omega

/-- Witness for the amended C7: the spec's one-segment example URL. -/
theorem extractRepoInfo_short_path_witness :
    extractRepoInfo "https://github.com/onlyowner" = .error "Invalid GitHub URL format" :=
  extractRepoInfo_short_path "https://github.com/onlyowner"
    ⟨"https", "github.com", "/onlyowner"⟩ rfl rfl (by decide)

/-- Claim C8 counterexample: the two fetch failure kinds are not
distinguishable by the caller; a transport failure whose cause message
mimics the HTTP wording produces exactly the same error value as a real
HTTP 404 response, because both kinds collapse into one generic error
message. -/
theorem fetch_failures_not_distinguishable :
    fetchGitHubRepoData reactInfo (fun _ => .transportError "GitHub API error: 404") 0
      = fetchGitHubRepoData reactInfo (fun _ => .response 404 reactSnapshot) 0
    ∧ fetchGitHubRepoData reactInfo (fun _ => .transportError "GitHub API error: 404") 0
        = .error "Failed to fetch repository data: GitHub API error: 404" :=
  ⟨rfl, rfl⟩

/-- Claim C8 amended: a non-success response status fails with the message
"Failed to fetch repository data: GitHub API error: <status>" and a
transport failure fails with "Failed to fetch repository data: <cause>";
both are the same error class, telling the status or cause apart requires
inspecting the message text, and the two kinds can collide. -/
theorem fetchGitHubRepoData_failure_messages (repoInfo : RepoInfo) (now : Int)
    (status : Nat) (data : GitHubRepoJson) (cause : String)
    (hs : responseOk status = false) :
    fetchGitHubRepoData repoInfo (fun _ => .response status data) now
      = .error ("Failed to fetch repository data: GitHub API error: " ++ toString status)
    ∧ fetchGitHubRepoData repoInfo (fun _ => .transportError cause) now
      = .error ("Failed to fetch repository data: " ++ cause) := by
  constructor
  · simp [fetchGitHubRepoData, hs]
  · rfl

/-- Witness for the amended C8: an HTTP 404 response and a connection-reset
transport failure at the example identity. -/
theorem fetchGitHubRepoData_failure_messages_witness :
    fetchGitHubRepoData reactInfo (fun _ => .response 404 reactSnapshot) 0
      = .error ("Failed to fetch repository data: GitHub API error: " ++ toString 404)
    ∧ fetchGitHubRepoData reactInfo (fun _ => .transportError "connection reset") 0
      = .error ("Failed to fetch repository data: " ++ "connection reset") :=
  fetchGitHubRepoData_failure_messages reactInfo 0 404 reactSnapshot
    "connection reset" (by decide)

/-- Claim C9: listing returns the store's records ordered by createdat
descending (a sorted permutation of the store contents), and on the empty
store it returns the empty list as an ordinary ok result. -/
theorem fetchRepos_ordered :
    (∀ store : List RepoRecord, ∃ l : List RepoRecord,
        fetchRepos store = .ok l
        ∧ List.Sorted createdDesc l
        ∧ List.Perm l store)
    ∧ fetchRepos ([] : List RepoRecord) = .ok ([] : List RepoRecord) :=
  ⟨fun store =>
    ⟨selectAllCreatedAtDesc store, rfl,
     List.sorted_insertionSort createdDesc store,
     List.perm_insertionSort createdDesc store⟩,
   rfl⟩

/-- Claim C10: mainlanguage is "Unknown" for every falsy provider language
value, the absent field and the empty string alike, so the two are
indistinguishable in the persisted record. -/
theorem mainlanguage_falsy_unknown :
    (∀ (d : GitHubRepoJson) (now : Int), d.language = none →
        (deriveRecord d now).mainlanguage = "Unknown")
    ∧ (∀ (d : GitHubRepoJson) (now : Int), d.language = some "" →
        (deriveRecord d now).mainlanguage = "Unknown")
    ∧ (∀ (d : GitHubRepoJson) (now : Int), d.language = none →
        deriveRecord d now = deriveRecord { d with language := some "" } now) := by
  refine ⟨?_, ?_, ?_⟩
  · intro d now hl
    show jsStringOr d.language "Unknown" = "Unknown"
    rw [hl]
    rfl
  · intro d now hl
    show jsStringOr d.language "Unknown" = "Unknown"
    rw [hl]
    rfl
  · intro d now hl
    simp [deriveRecord, jsStringOr, hl]

/-- Witness for C10: the example snapshot with no language and the one with
an empty-string language both persist "Unknown", and the two snapshots
yield identical records. -/
theorem mainlanguage_falsy_unknown_witness :
    (deriveRecord noLangSnapshot 0).mainlanguage = "Unknown"
    ∧ (deriveRecord emptyLangSnapshot 0).mainlanguage = "Unknown"
    ∧ deriveRecord noLangSnapshot 0
        = deriveRecord { noLangSnapshot with language := some "" } 0 :=
  ⟨mainlanguage_falsy_unknown.1 noLangSnapshot 0 rfl,
   mainlanguage_falsy_unknown.2.1 emptyLangSnapshot 0 rfl,
   mainlanguage_falsy_unknown.2.2 noLangSnapshot 0 rfl⟩

end GitHubMetrics
